import Mathlib

/-!
# Solar system animation (js/main.js): shallow embedding

The embedding follows `js/main.js`.  JavaScript numbers are read as elements of
a field `α` (the theorems take `α := ℝ`), so every statement below is about the
exact arithmetic of the program and not about IEEE-754 rounding.  The services
the program calls but does not define (`Math.cos`, `Math.sin`, the camera
projection `Vector3.project`, `OrbitControls.update`, the size of the canvas)
are gathered in `JSMath` and `View` and passed as parameters.  Colours, textures
and CSS are not modelled.
-/

namespace SolarSystem

/-! ## Data model -/

/-- Keys of `planetProperties` (lines 13-23), in declaration order. -/
inductive Body where
  | mercury | venus | earth | mars | jupiter | saturn | uranus | neptune | sun
  deriving DecidableEq

/-- Objects that `scene.add` puts into `scene.children`: the nine sphere meshes
(line 237), the sun light (line 243), one ring per satellite (line 41) and the
star field (line 371). -/
inductive Obj where
  | mesh (b : Body)
  | sunLight
  | ring (b : Body)
  | stars
  deriving DecidableEq

/-- Elements appended to `document.body`. -/
inductive Dom where
  | label (b : Body)
  | canvas
  | speedPanel
  | pauseBtn
  | themeToggleBtn
  deriving DecidableEq

/-- Three.js `Vector3`. -/
structure Vector3 (α : Type) where
  x : α
  y : α
  z : α
  deriving DecidableEq

/-- One entry of `planetProperties`; the texture path is not modelled. -/
structure PlanetProps (α : Type) where
  radius : α
  size : α
  speed : α
  deriving DecidableEq

/-- The parts of a `THREE.Mesh` the program reads or writes: `position`,
`rotation.y`, and the translation column of `matrixWorld`. -/
structure Mesh (α : Type) where
  position : Vector3 α
  rotationY : α
  matrixWorld : Vector3 α
  deriving DecidableEq

/-- One entry of `planetLabels` (line 61): the key, the referenced mesh (which of
the nine sphere meshes it is), the `visibility` style of the element
(`true` for `visible`), and the pixel offsets `(x, y)` of the second `translate`
of its `transform` style (`none` until `updateLabels` first writes it). -/
structure Label (α : Type) where
  name : Body
  mesh : Body
  visible : Bool
  anchor : Option (α × α)
  deriving DecidableEq

/-- The `camera.position` and `controls.target` vectors. -/
structure Camera (α : Type) where
  position : Vector3 α
  target : Vector3 α
  deriving DecidableEq

/-- One element of the array returned by `raycaster.intersectObjects`. -/
structure Intersection (α : Type) where
  distance : α
  object : Obj
  deriving DecidableEq

/-- The two functions of the JavaScript `Math` object the program calls. -/
structure JSMath (α : Type) where
  cos : α → α
  sin : α → α

/-- What the surroundings supply during one animation frame: the camera
projection `Vector3.project(camera)`, the effect of `controls.update()` on the
camera, and the size of `renderer.domElement`. -/
structure View (α : Type) where
  project : Vector3 α → Vector3 α
  controlsUpdate : Camera α → Camera α
  clientWidth : α
  clientHeight : α

/-- Global state of the page. -/
structure State (α : Type) where
  planetProperties : Body → PlanetProps α
  meshes : Body → Mesh α
  planetLabels : List (Label α)
  orbitLines : List Obj
  animationPaused : Bool
  camera : Camera α
  sceneChildren : List Obj
  documentBody : List Dom
  sliders : List Body
  themeToggleAdded : Bool
  starsAdded : Bool

/-! ## Vector operations -/

/-- Method `Vector3.subVectors(a, b)`. -/
def Vector3.subVectors {α : Type} [Sub α] (a b : Vector3 α) : Vector3 α :=
  { x := a.x - b.x, y := a.y - b.y, z := a.z - b.z }

/-- Method `Vector3.add(v)`. -/
def Vector3.add {α : Type} [Add α] (a v : Vector3 α) : Vector3 α :=
  { x := a.x + v.x, y := a.y + v.y, z := a.z + v.z }

/-! ## Registry -/

/-- Iteration order of `for (const planet in planetProperties)`. -/
def planetOrder : List Body :=
  [.mercury, .venus, .earth, .mars, .jupiter, .saturn, .uranus, .neptune, .sun]

/-- The keys of `planetProperties` other than `sun`, in order. -/
def satellites : List Body :=
  planetOrder.filter (fun planet => planet ≠ Body.sun)

/-- Initial contents of `planetProperties` (lines 13-23). -/
def planetProperties {α : Type} [Field α] : Body → PlanetProps α
  | .mercury => { radius := 50, size := 2, speed := 2 }
  | .venus => { radius := 60, size := 3, speed := 1.5 }
  | .earth => { radius := 70, size := 4, speed := 1 }
  | .mars => { radius := 80, size := 3.5, speed := 0.8 }
  | .jupiter => { radius := 100, size := 10, speed := 0.7 }
  | .saturn => { radius := 120, size := 8, speed := 0.6 }
  | .uranus => { radius := 140, size := 6, speed := 0.5 }
  | .neptune => { radius := 160, size := 5, speed := 0.4 }
  | .sun => { radius := 20, size := 20, speed := 0 }

/-! ## State accessors -/

/-- Assignment `planet.position.x = v`. -/
def State.setPositionX {α : Type} (st : State α) (planet : Body) (v : α) : State α :=
  let m := st.meshes planet
  let m1 : Mesh α := { m with position := { m.position with x := v } }
  { st with meshes := Function.update st.meshes planet m1 }

/-- Assignment `planet.position.z = v`. -/
def State.setPositionZ {α : Type} (st : State α) (planet : Body) (v : α) : State α :=
  let m := st.meshes planet
  let m1 : Mesh α := { m with position := { m.position with z := v } }
  { st with meshes := Function.update st.meshes planet m1 }

/-- Update `planet.rotation.y += d`. -/
def State.addRotationY {α : Type} [Add α] (st : State α) (planet : Body) (d : α) : State α :=
  let m := st.meshes planet
  let m1 : Mesh α := { m with rotationY := m.rotationY + d }
  { st with meshes := Function.update st.meshes planet m1 }

/-- Assignment `planetProperties[planet].speed = v`. -/
def State.setSpeed {α : Type} (st : State α) (planet : Body) (v : α) : State α :=
  let props := st.planetProperties planet
  let props1 : PlanetProps α := { props with speed := v }
  { st with planetProperties := Function.update st.planetProperties planet props1 }

/-! ## Orbital kinematics -/

/-- Function `planetRevolver` (lines 379-383).  The sun's position is read from the
state at each of the two assignments, as in the source. -/
def planetRevolver {α : Type} [Field α] (E : JSMath α) (time speed : α) (planet : Body)
    (orbitRadius : α) (st : State α) : State α :=
  let planetAngle := time * 0.001 * speed
  let st1 := st.setPositionX planet
    ((st.meshes Body.sun).position.x + orbitRadius * E.cos planetAngle)
  st1.setPositionZ planet
    ((st1.meshes Body.sun).position.z + orbitRadius * E.sin planetAngle)

/-! ## Initialisation -/

/-- A freshly constructed mesh: at the origin, not rotated. -/
def newMesh {α : Type} [Field α] : Mesh α :=
  { position := { x := 0, y := 0, z := 0 }, rotationY := 0,
    matrixWorld := { x := 0, y := 0, z := 0 } }

/-- State at module load, before `init()` runs (lines 5-10, 13-23). -/
def emptyState {α : Type} [Field α] : State α :=
  { planetProperties := planetProperties
    meshes := fun _ => newMesh
    planetLabels := []
    orbitLines := []
    animationPaused := false
    camera := { position := { x := 0, y := 0, z := 0 }, target := { x := 0, y := 0, z := 0 } }
    sceneChildren := []
    documentBody := []
    sliders := []
    themeToggleAdded := false
    starsAdded := false }

/-- Assignment `planetLabels[planetName] = entry`: an existing key keeps its
place, a new key goes last. -/
def setLabel {α : Type} (labels : List (Label α)) (entry : Label α) : List (Label α) :=
  if labels.any (fun l => decide (l.name = entry.name)) then
    labels.map (fun l => if l.name = entry.name then entry else l)
  else labels ++ [entry]

/-- Function `createRing` (lines 37-45); the ring is tagged with the planet whose
radius it was created for. -/
def createRing {α : Type} (planet : Body) (st : State α) : State α :=
  { st with sceneChildren := st.sceneChildren ++ [Obj.ring planet],
            orbitLines := st.orbitLines ++ [Obj.ring planet] }

/-- Function `createPlanetLabel` (lines 48-62). -/
def createPlanetLabel {α : Type} (planetName : Body) (planetMesh : Body) (st : State α) :
    State α :=
  { st with documentBody := st.documentBody ++ [Dom.label planetName],
            planetLabels := setLabel st.planetLabels
              { name := planetName, mesh := planetMesh, visible := false, anchor := none } }

/-- Function `createSpeedControlPanel` (lines 80-134): one slider per key of
`planetProperties` except `sun`. -/
def createSpeedControlPanel {α : Type} (st : State α) : State α :=
  { st with sliders := planetOrder.filter (fun planet => planet ≠ Body.sun),
            documentBody := st.documentBody ++ [Dom.speedPanel] }

/-- Function `createPauseButton` (lines 137-158). -/
def createPauseButton {α : Type} (st : State α) : State α :=
  { st with documentBody := st.documentBody ++ [Dom.pauseBtn] }

/-- Body of the loop of `init` (lines 227-248). -/
def initPlanet {α : Type} [Field α] (st : State α) (planet : Body) : State α :=
  let st1 : State α :=
    { st with meshes := Function.update st.meshes planet newMesh,
              sceneChildren := st.sceneChildren ++ [Obj.mesh planet] }
  if planet = Body.sun then
    { st1 with sceneChildren := st1.sceneChildren ++ [Obj.sunLight] }
  else createRing planet (createPlanetLabel planet planet st1)

/-- Function `init` (lines 222-274); `setupRaycaster` only registers the two
pointer handlers. -/
def init {α : Type} [Field α] : State α :=
  let st1 : State α := planetOrder.foldl initPlanet emptyState
  let st2 : State α :=
    { st1 with documentBody := st1.documentBody ++ [Dom.canvas],
               camera := { position := { x := 0, y := 0, z := 100 },
                           target := { x := 0, y := 0, z := 0 } } }
  createPauseButton (createSpeedControlPanel st2)

/-! ## Labels -/

/-- Lines 72-73 of `updateLabels`: pixel position from normalized device
coordinates. -/
def screenPosition {α : Type} [Field α] (vector : Vector3 α) (clientWidth clientHeight : α) :
    α × α :=
  ((vector.x * 0.5 + 0.5) * clientWidth, (-(vector.y * 0.5) + 0.5) * clientHeight)

/-- Function `updateLabels` (lines 65-77). -/
def updateLabels {α : Type} [Field α] (V : View α) (st : State α) : State α :=
  { st with planetLabels := st.planetLabels.map (fun l =>
      let vector := V.project (st.meshes l.mesh).matrixWorld
      { l with anchor := some (screenPosition vector V.clientWidth V.clientHeight) }) }

/-! ## Speed sliders and pause button -/

/-- Listener of line 122-125, for the slider of `planet`; `value` is
`parseFloat(e.target.value)`.  Only the planets in `sliders` have a slider, so an
input event for any other key reaches no listener. -/
def sliderInput {α : Type} (planet : Body) (value : α) (st : State α) : State α :=
  if planet ∈ st.sliders then st.setSpeed planet value else st

/-- Listener of lines 152-155. -/
def pauseClick {α : Type} (st : State α) : State α :=
  { st with animationPaused := !st.animationPaused }

/-! ## Picking -/

/-- The search `Object.keys(planetLabels).find(name => planetLabels[name].mesh === object)`. -/
def findPlanetName {α : Type} (labels : List (Label α)) (object : Obj) : Option Body :=
  (labels.find? (fun l => decide (Obj.mesh l.mesh = object))).map (fun l => l.name)

/-- The loop header shared by `onMouseMove` (lines 178-186) and `onClick`
(lines 197-214): the `planetName` at which the loop reaches its `break`. -/
def pickLoop {α : Type} (labels : List (Label α)) : List (Intersection α) → Option Body
  | [] => none
  | i :: rest =>
    match findPlanetName labels i.object with
    | some planetName => some planetName
    | none => pickLoop labels rest

/-- Function `onMouseMove` (lines 165-189); `intersects` is the array returned by
`raycaster.intersectObjects(scene.children)`. -/
def onMouseMove {α : Type} (intersects : List (Intersection α)) (st : State α) : State α :=
  let hidden := st.planetLabels.map (fun l => { l with visible := false })
  match pickLoop hidden intersects with
  | some planetName =>
    { st with planetLabels :=
        hidden.map (fun l => if l.name = planetName then { l with visible := true } else l) }
  | none => { st with planetLabels := hidden }

/-- Lines 207-209 of `onClick`: retarget the controls and move the camera. -/
def focus {α : Type} [Field α] (targetPosition : Vector3 α) (cam : Camera α) : Camera α :=
  let direction := Vector3.subVectors cam.position cam.target
  { target := targetPosition, position := Vector3.add targetPosition direction }

/-- Method `planet.getWorldPosition(target)`: refreshes the world matrix of the
mesh from its position and returns its translation. -/
def getWorldPosition {α : Type} (planet : Body) (st : State α) : Vector3 α × State α :=
  let m := st.meshes planet
  let m1 : Mesh α := { m with matrixWorld := m.position }
  (m1.matrixWorld, { st with meshes := Function.update st.meshes planet m1 })

/-- Function `onClick` (lines 190-215). -/
def onClick {α : Type} [Field α] (controlsUpdate : Camera α → Camera α)
    (intersects : List (Intersection α)) (st : State α) : State α :=
  match pickLoop st.planetLabels intersects with
  | some planetName =>
    match st.planetLabels.find? (fun l => decide (l.name = planetName)) with
    | some l =>
      let r := getWorldPosition l.mesh st
      { r.2 with camera := controlsUpdate (focus r.1 r.2.camera) }
    | none => st
  | none => st

/-! ## Animation -/

/-- Function `setupThemeToggle` (lines 287-324): the button it appends. -/
def setupThemeToggle {α : Type} (st : State α) : State α :=
  { st with documentBody := st.documentBody ++ [Dom.themeToggleBtn] }

/-- Call `renderer.render(scene, camera)`: refreshes every world matrix. -/
def render {α : Type} (st : State α) : State α :=
  { st with meshes := fun b => { st.meshes b with matrixWorld := (st.meshes b).position } }

/-- Order of the array of line 332-333. -/
def rotationOrder : List Body :=
  [.earth, .sun, .mercury, .venus, .mars, .jupiter, .saturn, .uranus, .neptune]

/-- Lines 330-345 of `animate`: the branch taken when not paused. -/
def moveBodies {α : Type} [Field α] (E : JSMath α) (time : α) (st : State α) : State α :=
  let rotationSpeed : α := 0.005
  let s0 := rotationOrder.foldl (fun s planet => s.addRotationY planet rotationSpeed) st
  let s1 := planetRevolver E time (s0.planetProperties .mercury).speed .mercury
    (s0.planetProperties .mercury).radius s0
  let s2 := planetRevolver E time (s1.planetProperties .venus).speed .venus
    (s1.planetProperties .venus).radius s1
  let s3 := planetRevolver E time (s2.planetProperties .earth).speed .earth
    (s2.planetProperties .earth).radius s2
  let s4 := planetRevolver E time (s3.planetProperties .mars).speed .mars
    (s3.planetProperties .mars).radius s3
  let s5 := planetRevolver E time (s4.planetProperties .jupiter).speed .jupiter
    (s4.planetProperties .jupiter).radius s4
  let s6 := planetRevolver E time (s5.planetProperties .saturn).speed .saturn
    (s5.planetProperties .saturn).radius s5
  let s7 := planetRevolver E time (s6.planetProperties .uranus).speed .uranus
    (s6.planetProperties .uranus).radius s6
  planetRevolver E time (s7.planetProperties .neptune).speed .neptune
    (s7.planetProperties .neptune).radius s7

/-- Function `animate` (lines 326-378). -/
def animate {α : Type} [Field α] (E : JSMath α) (V : View α) (time : α) (st : State α) :
    State α :=
  let s1 := if !st.animationPaused then moveBodies E time st else st
  let s2 : State α :=
    if !s1.themeToggleAdded then { setupThemeToggle s1 with themeToggleAdded := true } else s1
  let s3 : State α :=
    if !s2.starsAdded then
      { s2 with sceneChildren := s2.sceneChildren ++ [Obj.stars], starsAdded := true }
    else s2
  let s4 := updateLabels V s3
  let s5 : State α := { s4 with camera := V.controlsUpdate s4.camera }
  render s5

/-! ## Events -/

/-- What can happen to the page: an animation frame, a pointer move or click
(with the intersections the raycaster finds), a click on the pause button, an
input event of the slider of a planet. -/
inductive Event (α : Type) where
  | frame (V : View α) (time : α)
  | mouseMove (intersects : List (Intersection α))
  | click (controlsUpdate : Camera α → Camera α) (intersects : List (Intersection α))
  | pauseClick
  | sliderInput (planet : Body) (value : α)

/-- Effect of one event. -/
def step {α : Type} [Field α] (E : JSMath α) (st : State α) : Event α → State α
  | .frame V time => animate E V time st
  | .mouseMove intersects => onMouseMove intersects st
  | .click controlsUpdate intersects => onClick controlsUpdate intersects st
  | .pauseClick => pauseClick st
  | .sliderInput planet value => sliderInput planet value st

/-- Effect of a sequence of events, oldest first. -/
def run {α : Type} [Field α] (E : JSMath α) (events : List (Event α)) (st : State α) :
    State α :=
  events.foldl (step E) st

/-! ## Vocabulary of the statements -/

/-- Whether an event is an animation frame. -/
def Event.isFrame {α : Type} : Event α → Bool
  | .frame _ _ => true
  | _ => false

/-- The one-time setup has run `n` times in `st`, judged by what it leaves behind: the
theme button in `document.body` and the star field in `scene.children`. -/
def SetupCount {α : Type} (st : State α) (n : ℕ) : Prop :=
  st.documentBody.count Dom.themeToggleBtn = n ∧ st.sceneChildren.count Obj.stars = n

/-- The satellite whose sphere mesh an object is, if it is one: the sun's mesh, the
rings, the light and the stars are none. -/
def satelliteOf : Obj → Option Body
  | .mesh b => if b = Body.sun then none else some b
  | _ => none

/-- The label table has the keys and meshes `init` gives it (one label per satellite,
in order, each pointing to the mesh of its planet); visibilities and anchors are
arbitrary. -/
def LabelsOfInit {α : Type} (labels : List (Label α)) : Prop :=
  labels.map (fun l => (l.name, l.mesh)) = satellites.map (fun b => (b, b))

/-- Intersection `i` is the first element of `intersects` whose object is the mesh of a
satellite, and that satellite is `b`. -/
def FirstSatelliteHit {α : Type} (intersects : List (Intersection α)) (i : Intersection α)
    (b : Body) : Prop :=
  satelliteOf i.object = some b ∧
  ∃ before after : List (Intersection α), intersects = before ++ i :: after ∧
    ∀ j ∈ before, satelliteOf j.object = none

/-- No element of `intersects` is the mesh of a satellite. -/
def NoSatelliteHit {α : Type} (intersects : List (Intersection α)) : Prop :=
  ∀ j ∈ intersects, satelliteOf j.object = none

/-- Number of labels whose `visibility` is `visible`. -/
def visibleCount {α : Type} (labels : List (Label α)) : ℕ :=
  labels.countP (fun l => l.visible)

/-! ## Orbital kinematics: lemmas -/

theorem planetRevolver_meshes_other {α : Type} [Field α] (E : JSMath α) (time speed : α)
    (planet : Body) (orbitRadius : α) (st : State α) (b : Body) (hb : b ≠ planet) :
    (planetRevolver E time speed planet orbitRadius st).meshes b = st.meshes b := by
  simp [planetRevolver, State.setPositionX, State.setPositionZ, Function.update, hb]

theorem planetRevolver_position {α : Type} [Field α] (E : JSMath α) (time speed : α)
    (planet : Body) (orbitRadius : α) (st : State α) (hsat : planet ≠ Body.sun) :
    ((planetRevolver E time speed planet orbitRadius st).meshes planet).position =
      { x := (st.meshes Body.sun).position.x + orbitRadius * E.cos (time * 0.001 * speed),
        y := (st.meshes planet).position.y,
        z := (st.meshes Body.sun).position.z + orbitRadius * E.sin (time * 0.001 * speed) } := by
  have hsun : Body.sun ≠ planet := fun h => hsat h.symm
  simp [planetRevolver, State.setPositionX, State.setPositionZ, Function.update, hsun]

theorem planetRevolver_rotationY {α : Type} [Field α] (E : JSMath α) (time speed : α)
    (planet : Body) (orbitRadius : α) (st : State α) (b : Body) :
    ((planetRevolver E time speed planet orbitRadius st).meshes b).rotationY =
      (st.meshes b).rotationY := by
  by_cases hb : b = planet
  · subst hb
    simp [planetRevolver, State.setPositionX, State.setPositionZ, Function.update]
  · rw [planetRevolver_meshes_other E time speed planet orbitRadius st b hb]

/-- Claim C1: for a satellite mesh, any time, speed, radius `r ≥ 0` and any position of
the sun, after `planetRevolver` the sun is where it was and the planet satisfies
`(x - cx)^2 + (z - cz)^2 = r^2`, that is, its planar distance from the sun is `r`. -/
theorem planetRevolver_circular_orbit (st : State ℝ) (time speed : ℝ) (planet : Body)
    (orbitRadius : ℝ) (hsat : planet ≠ Body.sun) (hr : 0 ≤ orbitRadius) :
    (planetRevolver (JSMath.mk Real.cos Real.sin) time speed planet orbitRadius st).meshes
        Body.sun = st.meshes Body.sun ∧
    (((planetRevolver (JSMath.mk Real.cos Real.sin) time speed planet orbitRadius st).meshes
          planet).position.x - (st.meshes Body.sun).position.x) ^ 2 +
      (((planetRevolver (JSMath.mk Real.cos Real.sin) time speed planet orbitRadius st).meshes
          planet).position.z - (st.meshes Body.sun).position.z) ^ 2 = orbitRadius ^ 2 ∧
    Real.sqrt
      ((((planetRevolver (JSMath.mk Real.cos Real.sin) time speed planet orbitRadius st).meshes
          planet).position.x - (st.meshes Body.sun).position.x) ^ 2 +
      (((planetRevolver (JSMath.mk Real.cos Real.sin) time speed planet orbitRadius st).meshes
          planet).position.z - (st.meshes Body.sun).position.z) ^ 2) = orbitRadius := by
  have hsun : Body.sun ≠ planet := fun h => hsat h.symm
  have hpos := planetRevolver_position (JSMath.mk Real.cos Real.sin) time speed planet
    orbitRadius st hsat
  have hsq : (((planetRevolver (JSMath.mk Real.cos Real.sin) time speed planet orbitRadius
      st).meshes planet).position.x - (st.meshes Body.sun).position.x) ^ 2 +
      (((planetRevolver (JSMath.mk Real.cos Real.sin) time speed planet orbitRadius st).meshes
          planet).position.z - (st.meshes Body.sun).position.z) ^ 2 = orbitRadius ^ 2 := by
    rw [hpos]
    have h1 := Real.cos_sq_add_sin_sq (time * 0.001 * speed)
    simp only [add_sub_cancel_left]
    calc (orbitRadius * Real.cos (time * 0.001 * speed)) ^ 2 +
          (orbitRadius * Real.sin (time * 0.001 * speed)) ^ 2
        = orbitRadius ^ 2 * (Real.cos (time * 0.001 * speed) ^ 2 +
            Real.sin (time * 0.001 * speed) ^ 2) := by ring
      _ = orbitRadius ^ 2 := by rw [h1, mul_one]
  refine ⟨planetRevolver_meshes_other _ time speed planet orbitRadius st Body.sun hsun, hsq, ?_⟩
  rw [hsq]
  exact Real.sqrt_sq hr

theorem planetRevolver_circular_orbit_witness :
    (Body.earth ≠ Body.sun ∧ (0 : ℝ) ≤ 70) ∧
    ((planetRevolver (JSMath.mk Real.cos Real.sin) 1234 1 Body.earth 70 init).meshes
        Body.sun = (init : State ℝ).meshes Body.sun ∧
    (((planetRevolver (JSMath.mk Real.cos Real.sin) 1234 1 Body.earth 70 init).meshes
          Body.earth).position.x - ((init : State ℝ).meshes Body.sun).position.x) ^ 2 +
      (((planetRevolver (JSMath.mk Real.cos Real.sin) 1234 1 Body.earth 70 init).meshes
          Body.earth).position.z - ((init : State ℝ).meshes Body.sun).position.z) ^ 2
        = (70 : ℝ) ^ 2 ∧
    Real.sqrt
      ((((planetRevolver (JSMath.mk Real.cos Real.sin) 1234 1 Body.earth 70 init).meshes
          Body.earth).position.x - ((init : State ℝ).meshes Body.sun).position.x) ^ 2 +
      (((planetRevolver (JSMath.mk Real.cos Real.sin) 1234 1 Body.earth 70 init).meshes
          Body.earth).position.z - ((init : State ℝ).meshes Body.sun).position.z) ^ 2)
        = (70 : ℝ)) :=
  ⟨⟨by decide, by norm_num⟩,
    planetRevolver_circular_orbit init 1234 1 Body.earth 70 (by decide) (by norm_num)⟩

/-! ## Initial state: lemmas -/

theorem init_meshes {α : Type} [Field α] (b : Body) : (init : State α).meshes b = newMesh := by
  cases b <;>
    simp [init, planetOrder, initPlanet, createRing, createPlanetLabel, createPauseButton,
      createSpeedControlPanel, emptyState, Function.update]

theorem init_planetProperties {α : Type} [Field α] :
    (init : State α).planetProperties = planetProperties := by
  simp [init, planetOrder, initPlanet, createRing, createPlanetLabel, createPauseButton,
    createSpeedControlPanel, emptyState]

/-- Claim C2: for a satellite with orbit radius `r`, `planetRevolver` at time `0` (any
speed) puts it at `(sun.x + r, y, sun.z)`, and at any time and speed with
`time * 0.001 * speed = π / 2` it puts it at `(sun.x, y, sun.z + r)`, where `y` is the
planet's previous `y` coordinate. -/
theorem planetRevolver_quarter_orbit (st : State ℝ) (planet : Body) (orbitRadius : ℝ)
    (hsat : planet ≠ Body.sun) :
    (∀ speed : ℝ,
      ((planetRevolver (JSMath.mk Real.cos Real.sin) 0 speed planet orbitRadius st).meshes
          planet).position =
        { x := (st.meshes Body.sun).position.x + orbitRadius,
          y := (st.meshes planet).position.y,
          z := (st.meshes Body.sun).position.z }) ∧
    (∀ time speed : ℝ, time * 0.001 * speed = Real.pi / 2 →
      ((planetRevolver (JSMath.mk Real.cos Real.sin) time speed planet orbitRadius st).meshes
          planet).position =
        { x := (st.meshes Body.sun).position.x,
          y := (st.meshes planet).position.y,
          z := (st.meshes Body.sun).position.z + orbitRadius }) := by
  constructor
  · intro speed
    rw [planetRevolver_position _ _ _ _ _ _ hsat]
    simp
  · intro time speed hangle
    rw [planetRevolver_position _ _ _ _ _ _ hsat]
    simp [hangle]

theorem planetRevolver_quarter_orbit_witness :
    (Body.earth ≠ Body.sun ∧
      (500 * Real.pi) * 0.001 * ((init : State ℝ).planetProperties Body.earth).speed
        = Real.pi / 2) ∧
    ((planetRevolver (JSMath.mk Real.cos Real.sin) 0
        ((init : State ℝ).planetProperties Body.earth).speed Body.earth
        ((init : State ℝ).planetProperties Body.earth).radius init).meshes
          Body.earth).position = { x := 70, y := 0, z := 0 } ∧
    ((planetRevolver (JSMath.mk Real.cos Real.sin) (500 * Real.pi)
        ((init : State ℝ).planetProperties Body.earth).speed Body.earth
        ((init : State ℝ).planetProperties Body.earth).radius init).meshes
          Body.earth).position = { x := 0, y := 0, z := 70 } := by
  have hangle : (500 * Real.pi) * 0.001 * ((init : State ℝ).planetProperties Body.earth).speed
      = Real.pi / 2 := by
    rw [init_planetProperties]
    simp only [planetProperties]
    ring
  have h := planetRevolver_quarter_orbit (init : State ℝ) Body.earth
    ((init : State ℝ).planetProperties Body.earth).radius (by decide)
  refine ⟨⟨by decide, hangle⟩, ?_, ?_⟩
  · rw [h.1]
    simp [init_meshes, init_planetProperties, newMesh, planetProperties]
  · rw [h.2 _ _ hangle]
    simp [init_meshes, init_planetProperties, newMesh, planetProperties]

/-! ## Speed changes -/

theorem cos_sin_eq_iff (a b : ℝ) :
    (Real.cos a = Real.cos b ∧ Real.sin a = Real.sin b) ↔
      ∃ k : ℤ, a - b = 2 * Real.pi * k := by
  rw [← Real.Angle.angle_eq_iff_two_pi_dvd_sub]
  constructor
  · rintro ⟨hc, hs⟩
    exact Real.Angle.cos_sin_inj hc hs
  · intro h
    constructor
    · rw [← Real.Angle.cos_coe a, ← Real.Angle.cos_coe b, h]
    · rw [← Real.Angle.sin_coe a, ← Real.Angle.sin_coe b, h]

/-- Claim C8 (as amended): for a satellite, the positions `planetRevolver` computes at the
same time `t` with speeds `s2` and `s1` coincide exactly when the orbit radius is `0` or
the angles `t * 0.001 * s2` and `t * 0.001 * s1` differ by an integer multiple of `2π`. -/
theorem planetRevolver_speed_change_iff (st : State ℝ) (planet : Body) (time s1 s2 : ℝ)
    (orbitRadius : ℝ) (hsat : planet ≠ Body.sun) :
    ((planetRevolver (JSMath.mk Real.cos Real.sin) time s2 planet orbitRadius st).meshes
        planet).position =
      ((planetRevolver (JSMath.mk Real.cos Real.sin) time s1 planet orbitRadius st).meshes
        planet).position ↔
    (orbitRadius = 0 ∨ ∃ k : ℤ, time * 0.001 * s2 - time * 0.001 * s1 = 2 * Real.pi * k) := by
  rw [planetRevolver_position _ _ _ _ _ _ hsat, planetRevolver_position _ _ _ _ _ _ hsat,
    ← cos_sin_eq_iff]
  simp only [Vector3.mk.injEq, add_right_inj, true_and, mul_eq_mul_left_iff]
  tauto

theorem planetRevolver_speed_change_iff_witness :
    Body.earth ≠ Body.sun ∧
    (((planetRevolver (JSMath.mk Real.cos Real.sin) 1000 5 Body.earth 70 init).meshes
        Body.earth).position =
      ((planetRevolver (JSMath.mk Real.cos Real.sin) 1000 1 Body.earth 70 init).meshes
        Body.earth).position ↔
    ((70 : ℝ) = 0 ∨ ∃ k : ℤ, (1000 : ℝ) * 0.001 * 5 - 1000 * 0.001 * 1 = 2 * Real.pi * k)) :=
  ⟨by decide, planetRevolver_speed_change_iff init Body.earth 1000 1 5 70 (by decide)⟩

/-- Claim C8 (counterexample): at `t = 500π` ms the earth (radius 70) is at `(0, 0, 70)`
with speed `1` and at `(70, 0, 0)` with speed `0`, both speeds being in `[0, 5]`. -/
theorem planetRevolver_speed_change_counterexample :
    ((0 : ℝ) ≤ 1 ∧ (1 : ℝ) ≤ 5 ∧ (0 : ℝ) ≤ 0 ∧ (0 : ℝ) ≤ 5) ∧
    ((planetRevolver (JSMath.mk Real.cos Real.sin) (500 * Real.pi) 1 Body.earth 70
        (init : State ℝ)).meshes Body.earth).position = { x := 0, y := 0, z := 70 } ∧
    ((planetRevolver (JSMath.mk Real.cos Real.sin) (500 * Real.pi) 0 Body.earth 70
        (init : State ℝ)).meshes Body.earth).position = { x := 70, y := 0, z := 0 } ∧
    ((planetRevolver (JSMath.mk Real.cos Real.sin) (500 * Real.pi) 0 Body.earth 70
        (init : State ℝ)).meshes Body.earth).position ≠
      ((planetRevolver (JSMath.mk Real.cos Real.sin) (500 * Real.pi) 1 Body.earth 70
        (init : State ℝ)).meshes Body.earth).position := by
  have hangle : (500 * Real.pi) * 0.001 * 1 = Real.pi / 2 := by ring
  have h1 : ((planetRevolver (JSMath.mk Real.cos Real.sin) (500 * Real.pi) 1 Body.earth 70
      (init : State ℝ)).meshes Body.earth).position = { x := 0, y := 0, z := 70 } := by
    rw [planetRevolver_position _ _ _ _ _ _ (by decide), hangle]
    simp [init_meshes, newMesh]
  have h0 : ((planetRevolver (JSMath.mk Real.cos Real.sin) (500 * Real.pi) 0 Body.earth 70
      (init : State ℝ)).meshes Body.earth).position = { x := 70, y := 0, z := 0 } := by
    rw [planetRevolver_position _ _ _ _ _ _ (by decide)]
    simp [init_meshes, newMesh]
  refine ⟨by norm_num, h1, h0, ?_⟩
  rw [h1, h0]
  intro h
  have hx := congrArg Vector3.x h
  norm_num at hx

/-! ## Camera focus and label anchors -/

/-- Claim C4: for every target position, camera position and look-at target, the focus
step of `onClick` gives `newLookAt = targetPosition` and
`newCameraPosition = targetPosition + (cameraPosition - lookAt)`, so that
`newCameraPosition - newLookAt = cameraPosition - lookAt`, component by component. -/
theorem focus_preserves_offset (targetPosition : Vector3 ℝ) (cam : Camera ℝ) :
    (focus targetPosition cam).target = targetPosition ∧
    (focus targetPosition cam).position =
      { x := targetPosition.x + (cam.position.x - cam.target.x),
        y := targetPosition.y + (cam.position.y - cam.target.y),
        z := targetPosition.z + (cam.position.z - cam.target.z) } ∧
    (focus targetPosition cam).position.x - (focus targetPosition cam).target.x
      = cam.position.x - cam.target.x ∧
    (focus targetPosition cam).position.y - (focus targetPosition cam).target.y
      = cam.position.y - cam.target.y ∧
    (focus targetPosition cam).position.z - (focus targetPosition cam).target.z
      = cam.position.z - cam.target.z := by
  simp [focus, Vector3.add, Vector3.subVectors]

theorem updateLabels_planetLabels {α : Type} [Field α] (V : View α) (st : State α) :
    (updateLabels V st).planetLabels = st.planetLabels.map (fun l =>
      let vector := V.project (st.meshes l.mesh).matrixWorld
      { l with anchor := some (screenPosition vector V.clientWidth V.clientHeight) }) := rfl

/-- Claim C10: `updateLabels` gives every label the anchor
`((nx * 0.5 + 0.5) * w, (-(ny * 0.5) + 0.5) * h)`, where `(nx, ny)` is the projection of
the world position of the label's mesh and `w`, `h` the size of the canvas; the other
fields of the labels are kept; normalized coordinates `(0, 0)` are mapped to
`(w / 2, h / 2)`, `ny = 1` to the top (`0`) and `ny = -1` to the bottom (`h`). -/
theorem updateLabels_anchor (V : View ℝ) (st : State ℝ) :
    (updateLabels V st).planetLabels.length = st.planetLabels.length ∧
    (∀ (i : ℕ) (l : Label ℝ), st.planetLabels[i]? = some l →
      (updateLabels V st).planetLabels[i]? = some
        { name := l.name, mesh := l.mesh, visible := l.visible,
          anchor := some
            (((V.project (st.meshes l.mesh).matrixWorld).x * 0.5 + 0.5) * V.clientWidth,
             (-((V.project (st.meshes l.mesh).matrixWorld).y * 0.5) + 0.5) * V.clientHeight) }) ∧
    (∀ nz w h : ℝ, screenPosition { x := 0, y := 0, z := nz } w h = (w / 2, h / 2)) ∧
    (∀ nx nz w h : ℝ, (screenPosition { x := nx, y := 1, z := nz } w h).2 = 0) ∧
    (∀ nx nz w h : ℝ, (screenPosition { x := nx, y := -1, z := nz } w h).2 = h) := by
  refine ⟨by simp [updateLabels_planetLabels], ?_, ?_, ?_, ?_⟩
  · intro i l hl
    rw [updateLabels_planetLabels, List.getElem?_map, hl]
    rfl
  · intro nz w h
    simp only [screenPosition, Prod.mk.injEq]
    constructor <;> ring
  · intro nx nz w h
    simp only [screenPosition]
    norm_num
  · intro nx nz w h
    simp only [screenPosition]
    norm_num

theorem updateLabels_anchor_witness :
    (init : State ℝ).planetLabels[2]? = some
        { name := Body.earth, mesh := Body.earth, visible := false, anchor := none } ∧
    (updateLabels (View.mk (fun v => v) (fun c => c) 800 600)
        (init : State ℝ)).planetLabels[2]? = some
        { name := Body.earth, mesh := Body.earth, visible := false,
          anchor := some (400, 300) } := by
  have hinit : (init : State ℝ).planetLabels[2]? = some
      { name := Body.earth, mesh := Body.earth, visible := false, anchor := none } := by
    simp [init, planetOrder, initPlanet, createRing, createPlanetLabel, setLabel,
      createPauseButton, createSpeedControlPanel, emptyState]
  refine ⟨hinit, ?_⟩
  rw [(updateLabels_anchor (View.mk (fun v => v) (fun c => c) 800 600)
    (init : State ℝ)).2.1 2 _ hinit]
  simp [init_meshes, newMesh]
  norm_num

/-! ## Frames: fields a frame leaves alone -/

theorem moveBodies_fields {α : Type} [Field α] (E : JSMath α) (time : α) (st : State α) :
    (moveBodies E time st).themeToggleAdded = st.themeToggleAdded ∧
    (moveBodies E time st).starsAdded = st.starsAdded ∧
    (moveBodies E time st).documentBody = st.documentBody ∧
    (moveBodies E time st).sceneChildren = st.sceneChildren ∧
    (moveBodies E time st).animationPaused = st.animationPaused ∧
    (moveBodies E time st).planetProperties = st.planetProperties ∧
    (moveBodies E time st).planetLabels = st.planetLabels ∧
    (moveBodies E time st).camera = st.camera ∧
    (moveBodies E time st).sliders = st.sliders := by
  simp [moveBodies, planetRevolver, State.setPositionX, State.setPositionZ,
    State.addRotationY, rotationOrder]

theorem animate_animationPaused {α : Type} [Field α] (E : JSMath α) (V : View α) (time : α)
    (st : State α) : (animate E V time st).animationPaused = st.animationPaused := by
  obtain ⟨m1, m2, -, -, m5, -⟩ := moveBodies_fields E time st
  unfold animate
  by_cases hp : st.animationPaused = true <;>
    by_cases h1 : st.themeToggleAdded = true <;> by_cases h2 : st.starsAdded = true <;>
    simp [h1, h2, hp, render, updateLabels, setupThemeToggle, m1, m2, m5]

theorem init_sliders {α : Type} [Field α] : (init : State α).sliders = satellites := rfl

theorem init_animationPaused {α : Type} [Field α] :
    (init : State α).animationPaused = false := by
  simp [init, planetOrder, initPlanet, createRing, createPlanetLabel, createPauseButton,
    createSpeedControlPanel, emptyState]

/-! ## Pausing -/

theorem animate_paused {α : Type} [Field α] (E : JSMath α) (V : View α) (time : α)
    (st : State α) (hp : st.animationPaused = true) :
    (animate E V time st).animationPaused = true ∧
    ∀ b : Body, ((animate E V time st).meshes b).position = (st.meshes b).position ∧
      ((animate E V time st).meshes b).rotationY = (st.meshes b).rotationY := by
  unfold animate
  simp only [hp, Bool.not_true, Bool.false_eq_true, if_false]
  by_cases h1 : st.themeToggleAdded = true <;> by_cases h2 : st.starsAdded = true <;>
    simp [h1, h2, render, updateLabels, setupThemeToggle, hp]

theorem onMouseMove_meshes {α : Type} (intersects : List (Intersection α)) (st : State α) :
    (onMouseMove intersects st).meshes = st.meshes ∧
    (onMouseMove intersects st).animationPaused = st.animationPaused := by
  cases h : pickLoop (st.planetLabels.map (fun l => { l with visible := false })) intersects <;>
    simp [onMouseMove, h]

theorem onClick_meshes {α : Type} [Field α] (controlsUpdate : Camera α → Camera α)
    (intersects : List (Intersection α)) (st : State α) :
    (onClick controlsUpdate intersects st).animationPaused = st.animationPaused ∧
    ∀ b : Body, ((onClick controlsUpdate intersects st).meshes b).position
        = (st.meshes b).position ∧
      ((onClick controlsUpdate intersects st).meshes b).rotationY = (st.meshes b).rotationY := by
  unfold onClick
  split
  · split
    · rename_i l _
      refine ⟨by simp [getWorldPosition], fun b => ?_⟩
      by_cases hb : b = l.mesh
      · subst hb
        simp [getWorldPosition]
      · simp [getWorldPosition, Function.update, hb]
    · simp
  · simp

theorem sliderInput_meshes {α : Type} (planet : Body) (value : α) (st : State α) :
    (sliderInput planet value st).meshes = st.meshes ∧
    (sliderInput planet value st).animationPaused = st.animationPaused := by
  unfold sliderInput
  split <;> simp [State.setSpeed]

theorem step_paused {α : Type} [Field α] (E : JSMath α) (st : State α) (e : Event α)
    (hp : st.animationPaused = true) (he : e ≠ Event.pauseClick) :
    (step E st e).animationPaused = true ∧
    ∀ b : Body, ((step E st e).meshes b).position = (st.meshes b).position ∧
      ((step E st e).meshes b).rotationY = (st.meshes b).rotationY := by
  cases e with
  | frame V time => exact animate_paused E V time st hp
  | mouseMove intersects =>
    have h := onMouseMove_meshes intersects st
    simp [step, h.1, h.2, hp]
  | click controlsUpdate intersects =>
    have h := onClick_meshes controlsUpdate intersects st
    exact ⟨by simp [step, h.1, hp], h.2⟩
  | pauseClick => exact absurd rfl he
  | sliderInput planet value =>
    have h := sliderInput_meshes planet value st
    simp [step, h.1, h.2, hp]

theorem run_paused {α : Type} [Field α] (E : JSMath α) (events : List (Event α)) :
    ∀ st : State α, st.animationPaused = true → (∀ e ∈ events, e ≠ Event.pauseClick) →
      (run E events st).animationPaused = true ∧
      ∀ b : Body, ((run E events st).meshes b).position = (st.meshes b).position ∧
        ((run E events st).meshes b).rotationY = (st.meshes b).rotationY := by
  induction events with
  | nil => intro st hp _; exact ⟨hp, fun _ => ⟨rfl, rfl⟩⟩
  | cons e rest ih =>
    intro st hp hev
    have hs := step_paused E st e hp (hev e (List.mem_cons_self e rest))
    have hr := ih (step E st e) hs.1 (fun e1 h1 => hev e1 (List.mem_cons_of_mem e h1))
    refine ⟨hr.1, fun b => ?_⟩
    exact ⟨(hr.2 b).1.trans (hs.2 b).1, (hr.2 b).2.trans (hs.2 b).2⟩

/-- Claim C3: in a state with `animationPaused = true`, one call of `animate` (any time
argument) leaves the position and `rotation.y` of each of the nine bodies as they
were, and so does any sequence of events without a click on the pause button, in
particular any sequence of frames. -/
theorem animate_paused_freezes (E : JSMath ℝ) (st : State ℝ)
    (hp : st.animationPaused = true) :
    (∀ (V : View ℝ) (time : ℝ) (b : Body),
      ((animate E V time st).meshes b).position = (st.meshes b).position ∧
      ((animate E V time st).meshes b).rotationY = (st.meshes b).rotationY) ∧
    (∀ (frames : List (View ℝ × ℝ)) (b : Body),
      ((run E (frames.map (fun f => Event.frame f.1 f.2)) st).meshes b).position
        = (st.meshes b).position ∧
      ((run E (frames.map (fun f => Event.frame f.1 f.2)) st).meshes b).rotationY
        = (st.meshes b).rotationY) ∧
    (∀ (events : List (Event ℝ)) (b : Body), (∀ e ∈ events, e ≠ Event.pauseClick) →
      ((run E events st).meshes b).position = (st.meshes b).position ∧
      ((run E events st).meshes b).rotationY = (st.meshes b).rotationY) := by
  refine ⟨fun V time b => (animate_paused E V time st hp).2 b, fun frames b => ?_,
    fun events b hev => (run_paused E events st hp hev).2 b⟩
  refine (run_paused E _ st hp ?_).2 b
  intro e he
  obtain ⟨f, _, rfl⟩ := List.mem_map.mp he
  exact fun h => Event.noConfusion h

theorem animate_paused_freezes_witness :
    (pauseClick (animate (JSMath.mk Real.cos Real.sin)
      (View.mk (fun v => v) (fun c => c) 800 600) 1000 (init : State ℝ))).animationPaused
        = true ∧
    ((animate (JSMath.mk Real.cos Real.sin) (View.mk (fun v => v) (fun c => c) 800 600) 2000
        (pauseClick (animate (JSMath.mk Real.cos Real.sin)
          (View.mk (fun v => v) (fun c => c) 800 600) 1000 (init : State ℝ)))).meshes
            Body.earth).position =
      ((pauseClick (animate (JSMath.mk Real.cos Real.sin)
          (View.mk (fun v => v) (fun c => c) 800 600) 1000 (init : State ℝ))).meshes
            Body.earth).position := by
  have hp : (pauseClick (animate (JSMath.mk Real.cos Real.sin)
      (View.mk (fun v => v) (fun c => c) 800 600) 1000 (init : State ℝ))).animationPaused
        = true := by
    simp [pauseClick, animate_animationPaused, init_animationPaused]
  exact ⟨hp, ((animate_paused_freezes (JSMath.mk Real.cos Real.sin) _ hp).1
    (View.mk (fun v => v) (fun c => c) 800 600) 2000 Body.earth).1⟩

/-! ## One-time setup -/

theorem animate_setup {α : Type} [Field α] (E : JSMath α) (V : View α) (time : α)
    (st : State α) :
    (animate E V time st).themeToggleAdded = true ∧
    (animate E V time st).starsAdded = true ∧
    (animate E V time st).documentBody =
      (if st.themeToggleAdded then st.documentBody
        else st.documentBody ++ [Dom.themeToggleBtn]) ∧
    (animate E V time st).sceneChildren =
      (if st.starsAdded then st.sceneChildren else st.sceneChildren ++ [Obj.stars]) := by
  obtain ⟨m1, m2, m3, m4, -⟩ := moveBodies_fields E time st
  unfold animate
  by_cases hp : st.animationPaused = true <;>
    by_cases h1 : st.themeToggleAdded = true <;> by_cases h2 : st.starsAdded = true <;>
    simp [h1, h2, hp, render, updateLabels, setupThemeToggle, m1, m2, m3, m4]

theorem step_not_frame_setup {α : Type} [Field α] (E : JSMath α) (st : State α)
    (e : Event α) (he : e.isFrame = false) :
    (step E st e).themeToggleAdded = st.themeToggleAdded ∧
    (step E st e).starsAdded = st.starsAdded ∧
    (step E st e).documentBody = st.documentBody ∧
    (step E st e).sceneChildren = st.sceneChildren := by
  cases e with
  | frame V time => simp [Event.isFrame] at he
  | mouseMove intersects =>
    cases h : pickLoop (st.planetLabels.map (fun l => { l with visible := false })) intersects <;>
      simp [step, onMouseMove, h]
  | click controlsUpdate intersects =>
    simp only [step, onClick]
    split
    · split <;> simp [getWorldPosition]
    · simp
  | pauseClick => simp [step, pauseClick]
  | sliderInput planet value =>
    simp only [step, sliderInput]
    split <;> simp [State.setSpeed]

theorem run_setup {α : Type} [Field α] (E : JSMath α) (events : List (Event α)) :
    ∀ (st : State α) (ran : Bool), st.themeToggleAdded = ran → st.starsAdded = ran →
      SetupCount st (if ran then 1 else 0) →
      (run E events st).themeToggleAdded = (ran || events.any Event.isFrame) ∧
      (run E events st).starsAdded = (ran || events.any Event.isFrame) ∧
      SetupCount (run E events st) (if (ran || events.any Event.isFrame) then 1 else 0) := by
  induction events with
  | nil => intro st ran h1 h2 h3; simpa [run] using ⟨h1, h2, h3⟩
  | cons e rest ih =>
    intro st ran h1 h2 h3
    cases hf : e.isFrame with
    | false =>
      obtain ⟨s1, s2, s3, s4⟩ := step_not_frame_setup E st e hf
      have h := ih (step E st e) ran (s1.trans h1) (s2.trans h2)
        (by simpa [SetupCount, s3, s4] using h3)
      simpa [run, hf] using h
    | true =>
      cases e with
      | frame V time =>
        obtain ⟨a1, a2, a3, a4⟩ := animate_setup E V time st
        have hc : SetupCount (animate E V time st) (if true then 1 else 0) := by
          unfold SetupCount at h3 ⊢
          rw [a3, a4, h1, h2]
          cases ran <;> simp_all
        have h := ih (step E st (Event.frame V time)) true a1 a2 hc
        simpa [run, hf] using h
      | mouseMove intersects => simp [Event.isFrame] at hf
      | click controlsUpdate intersects => simp [Event.isFrame] at hf
      | pauseClick => simp [Event.isFrame] at hf
      | sliderInput planet value => simp [Event.isFrame] at hf

theorem init_setup {α : Type} [Field α] :
    (init : State α).themeToggleAdded = false ∧ (init : State α).starsAdded = false ∧
    SetupCount (init : State α) 0 := by
  simp [init, planetOrder, initPlanet, createRing, createPlanetLabel, createPauseButton,
    createSpeedControlPanel, emptyState, SetupCount]

/-- Claim C9: starting from the state `init()` leaves, in which neither setup has run,
the first frame runs the theme-toggle setup and creates the star field, once each; and
after any sequence of events (frames, paused or running, with pause clicks, pointer
events and slider inputs between them in any order) each has run exactly once if the
sequence contains a frame, and not at all otherwise: no later frame repeats either. -/
theorem setup_runs_once (E : JSMath ℝ) :
    SetupCount (init : State ℝ) 0 ∧
    (∀ (V : View ℝ) (time : ℝ), SetupCount (animate E V time init) 1) ∧
    (∀ events : List (Event ℝ),
      SetupCount (run E events init) (if events.any Event.isFrame then 1 else 0) ∧
      (run E events init).themeToggleAdded = events.any Event.isFrame ∧
      (run E events init).starsAdded = events.any Event.isFrame) := by
  obtain ⟨i1, i2, i3⟩ := @init_setup ℝ _
  refine ⟨i3, fun V time => ?_, fun events => ?_⟩
  · have h := run_setup E [Event.frame V time] init false i1 i2 (by simpa using i3)
    simpa [run, step, Event.isFrame] using h.2.2
  · have h := run_setup E events init false i1 i2 (by simpa using i3)
    simp only [Bool.false_or] at h
    exact ⟨h.2.2, h.1, h.2.1⟩

/-! ## Speed sliders -/

/-- Claim C7 (as amended): the slider listener does not validate its value.  In a state
whose sliders are those `createSpeedControlPanel` makes, for every satellite and every
value `v` the listener sets the speed of that satellite to `v` and leaves its radius and
size and the properties of all other bodies as they were; the sun has no slider, so an
input for it changes nothing. -/
theorem sliderInput_sets_speed (st : State ℝ) (hs : st.sliders = satellites) :
    (∀ (planet : Body) (v : ℝ), planet ≠ Body.sun →
      ((sliderInput planet v st).planetProperties planet).speed = v ∧
      ((sliderInput planet v st).planetProperties planet).radius
        = (st.planetProperties planet).radius ∧
      ((sliderInput planet v st).planetProperties planet).size
        = (st.planetProperties planet).size ∧
      ∀ other : Body, other ≠ planet →
        (sliderInput planet v st).planetProperties other = st.planetProperties other) ∧
    (∀ v : ℝ, sliderInput Body.sun v st = st) := by
  constructor
  · intro planet v hsat
    have hmem : planet ∈ st.sliders := by
      rw [hs]
      cases planet <;> first | exact absurd rfl hsat | decide
    refine ⟨by simp [sliderInput, hmem, State.setSpeed],
      by simp [sliderInput, hmem, State.setSpeed],
      by simp [sliderInput, hmem, State.setSpeed], fun other ho => ?_⟩
    simp [sliderInput, hmem, State.setSpeed, Function.update, ho]
  · intro v
    have hmem : Body.sun ∉ st.sliders := by
      rw [hs]
      decide
    simp [sliderInput, hmem]

theorem sliderInput_sets_speed_witness :
    (init : State ℝ).sliders = satellites ∧
    ((sliderInput Body.mars 2.5 (init : State ℝ)).planetProperties Body.mars).speed = 2.5 ∧
    sliderInput Body.sun 3 (init : State ℝ) = init :=
  ⟨init_sliders, ((sliderInput_sets_speed init init_sliders).1 Body.mars 2.5 (by decide)).1,
    (sliderInput_sets_speed init init_sliders).2 3⟩

/-- Claim C7 (counterexample): the value `7`, outside `[0, 5]`, given to the listener of
the earth slider in the initial state is not rejected: the speed of the earth, `1`
before, is `7` after. -/
theorem sliderInput_counterexample :
    ¬ ((0 : ℝ) ≤ 7 ∧ (7 : ℝ) ≤ 5) ∧
    ((init : State ℝ).planetProperties Body.earth).speed = 1 ∧
    ((sliderInput Body.earth 7 (init : State ℝ)).planetProperties Body.earth).speed = 7 ∧
    ((sliderInput Body.earth 7 (init : State ℝ)).planetProperties Body.earth).speed ≠
      ((init : State ℝ).planetProperties Body.earth).speed := by
  have hmem : Body.earth ∈ (init : State ℝ).sliders := by
    rw [init_sliders]
    decide
  have h7 : ((sliderInput Body.earth 7 (init : State ℝ)).planetProperties Body.earth).speed
      = 7 := by
    simp [sliderInput, hmem, State.setSpeed]
  have h1 : ((init : State ℝ).planetProperties Body.earth).speed = 1 := by
    rw [init_planetProperties]
    rfl
  refine ⟨by norm_num, h1, h7, ?_⟩
  rw [h7, h1]
  norm_num

/-! ## Picking: lemmas -/

theorem findPlanetName_eq {α : Type} (labels : List (Label α)) (h : LabelsOfInit labels)
    (object : Obj) : findPlanetName labels object = satelliteOf object := by
  have hmap : findPlanetName labels object =
      ((labels.map (fun l => (l.name, l.mesh))).find?
        (fun q => decide (Obj.mesh q.2 = object))).map Prod.fst := by
    unfold findPlanetName
    rw [List.find?_map]
    simp [Function.comp_def]
  rw [hmap, h]
  cases object with
  | mesh b => cases b <;> decide
  | sunLight => decide
  | ring b => cases b <;> decide
  | stars => decide

theorem pickLoop_eq {α : Type} (labels : List (Label α)) (h : LabelsOfInit labels)
    (intersects : List (Intersection α)) :
    pickLoop labels intersects = intersects.findSome? (fun i => satelliteOf i.object) := by
  induction intersects with
  | nil => rfl
  | cons i rest ih =>
    simp only [pickLoop, List.findSome?, findPlanetName_eq labels h]
    cases satelliteOf i.object <;> simp [ih]


theorem satelliteOf_eq_some {object : Obj} {b : Body} (h : satelliteOf object = some b) :
    object = Obj.mesh b ∧ b ≠ Body.sun := by
  cases object with
  | mesh c =>
    by_cases hc : c = Body.sun
    · simp [satelliteOf, hc] at h
    · simp only [satelliteOf, hc, if_false, Option.some.injEq] at h
      subst h
      exact ⟨rfl, hc⟩
  | sunLight => simp [satelliteOf] at h
  | ring c => simp [satelliteOf] at h
  | stars => simp [satelliteOf] at h

theorem pickLoop_eq_some_iff {α : Type} (labels : List (Label α)) (h : LabelsOfInit labels)
    (intersects : List (Intersection α)) (b : Body) :
    pickLoop labels intersects = some b ↔ ∃ i, FirstSatelliteHit intersects i b := by
  rw [pickLoop_eq labels h, List.findSome?_eq_some_iff]
  constructor
  · rintro ⟨before, i, after, h1, h2, h3⟩
    exact ⟨i, h2, before, after, h1, h3⟩
  · rintro ⟨i, h2, before, after, h1, h3⟩
    exact ⟨before, i, after, h1, h2, h3⟩

theorem pickLoop_eq_none_iff {α : Type} (labels : List (Label α)) (h : LabelsOfInit labels)
    (intersects : List (Intersection α)) :
    pickLoop labels intersects = none ↔ NoSatelliteHit intersects := by
  rw [pickLoop_eq labels h, List.findSome?_eq_none_iff]
  rfl

theorem hit_or_no_hit {α : Type} (intersects : List (Intersection α)) :
    (∃ i b, FirstSatelliteHit intersects i b) ∨ NoSatelliteHit intersects := by
  cases hf : intersects.findSome? (fun i => satelliteOf i.object) with
  | none => exact Or.inr (List.findSome?_eq_none_iff.mp hf)
  | some b =>
    obtain ⟨before, i, after, h1, h2, h3⟩ := List.findSome?_eq_some_iff.mp hf
    exact Or.inl ⟨i, b, h2, before, after, h1, h3⟩

theorem labelsOfInit_hidden {α : Type} (labels : List (Label α)) (h : LabelsOfInit labels) :
    LabelsOfInit (labels.map (fun l => { l with visible := false })) := by
  unfold LabelsOfInit at h ⊢
  rw [List.map_map]
  exact h

theorem labelsOfInit_count {α : Type} (labels : List (Label α)) (h : LabelsOfInit labels)
    (b : Body) (hb : b ≠ Body.sun) :
    labels.countP (fun l => decide (l.name = b)) = 1 := by
  have h1 : labels.countP (fun l => decide (l.name = b)) =
      (labels.map (fun l => (l.name, l.mesh))).countP (fun q => decide (q.1 = b)) := by
    rw [List.countP_map]
    rfl
  rw [h1, h]
  cases b <;> first | exact absurd rfl hb | decide

theorem labelsOfInit_find {α : Type} (labels : List (Label α)) (h : LabelsOfInit labels)
    (b : Body) (hb : b ≠ Body.sun) :
    ∃ l, labels.find? (fun l => decide (l.name = b)) = some l ∧ l.mesh = b := by
  have h1 : (labels.find? (fun l => decide (l.name = b))).map (fun l => (l.name, l.mesh)) =
      some (b, b) := by
    have h2 := List.find?_map (p := fun q : Body × Body => decide (q.1 = b))
      (fun l : Label α => (l.name, l.mesh)) labels
    rw [h] at h2
    rw [show (fun l : Label α => decide (l.name = b)) =
      (fun q : Body × Body => decide (q.1 = b)) ∘ (fun l : Label α => (l.name, l.mesh))
      from rfl, ← h2]
    cases b <;> first | exact absurd rfl hb | decide
  cases hf : labels.find? (fun l => decide (l.name = b)) with
  | none => simp [hf] at h1
  | some l =>
    refine ⟨l, rfl, ?_⟩
    simp only [hf, Option.map_some', Option.some.injEq, Prod.mk.injEq] at h1
    exact h1.2

theorem init_planetLabels {α : Type} [Field α] :
    (init : State α).planetLabels =
      satellites.map (fun b => { name := b, mesh := b, visible := false, anchor := none }) := by
  simp [init, planetOrder, initPlanet, createRing, createPlanetLabel, setLabel,
    createPauseButton, createSpeedControlPanel, emptyState, satellites]

theorem init_labelsOfInit {α : Type} [Field α] : LabelsOfInit (init : State α).planetLabels := by
  unfold LabelsOfInit
  rw [init_planetLabels, List.map_map]
  rfl

/-! ## Hover -/

theorem onMouseMove_planetLabels {α : Type} (intersects : List (Intersection α))
    (st : State α) (h : LabelsOfInit st.planetLabels) :
    (onMouseMove intersects st).planetLabels =
      match intersects.findSome? (fun i => satelliteOf i.object) with
      | some b => st.planetLabels.map (fun l => { l with visible := decide (l.name = b) })
      | none => st.planetLabels.map (fun l => { l with visible := false }) := by
  have hp := pickLoop_eq _ (labelsOfInit_hidden st.planetLabels h) intersects
  unfold onMouseMove
  simp only [hp]
  cases intersects.findSome? (fun i => satelliteOf i.object) with
  | none => rfl
  | some b =>
    simp only [List.map_map]
    apply List.map_congr_left
    intro l _
    by_cases hl : l.name = b <;> simp [hl]

/-- Claim C5 (as amended): in a state whose label table is the one `init` builds,
whatever the visibilities before, after `onMouseMove` the keys, meshes and anchors of
the labels are as before; if the intersection list contains the mesh of a satellite,
exactly one label is visible, that of the first satellite in the list; if it contains
none (the sun, which has no label, may still be hit), every label is hidden; one of the
two cases always holds, so at most one label is visible. -/
theorem onMouseMove_labels (st : State ℝ) (intersects : List (Intersection ℝ))
    (h : LabelsOfInit st.planetLabels) :
    (onMouseMove intersects st).planetLabels.map (fun l => (l.name, l.mesh, l.anchor)) =
      st.planetLabels.map (fun l => (l.name, l.mesh, l.anchor)) ∧
    (∀ (i : Intersection ℝ) (b : Body), FirstSatelliteHit intersects i b →
      visibleCount (onMouseMove intersects st).planetLabels = 1 ∧
      ∀ l ∈ (onMouseMove intersects st).planetLabels, (l.visible = true ↔ l.name = b)) ∧
    (NoSatelliteHit intersects →
      visibleCount (onMouseMove intersects st).planetLabels = 0 ∧
      ∀ l ∈ (onMouseMove intersects st).planetLabels, l.visible = false) ∧
    ((∃ i b, FirstSatelliteHit intersects i b) ∨ NoSatelliteHit intersects) ∧
    visibleCount (onMouseMove intersects st).planetLabels ≤ 1 := by
  have hl := onMouseMove_planetLabels intersects st h
  have hsome : ∀ (i : Intersection ℝ) (b : Body), FirstSatelliteHit intersects i b →
      visibleCount (onMouseMove intersects st).planetLabels = 1 ∧
      ∀ l ∈ (onMouseMove intersects st).planetLabels, (l.visible = true ↔ l.name = b) := by
    intro i b hib
    have hf : intersects.findSome? (fun i => satelliteOf i.object) = some b := by
      obtain ⟨h2, before, after, h1, h3⟩ := hib
      exact List.findSome?_eq_some_iff.mpr ⟨before, i, after, h1, h2, h3⟩
    rw [hf] at hl
    rw [hl]
    constructor
    · unfold visibleCount
      rw [List.countP_map]
      exact labelsOfInit_count st.planetLabels h b (satelliteOf_eq_some hib.1).2
    · intro l hmem
      obtain ⟨l0, _, rfl⟩ := List.mem_map.mp hmem
      simp
  have hnone : NoSatelliteHit intersects →
      visibleCount (onMouseMove intersects st).planetLabels = 0 ∧
      ∀ l ∈ (onMouseMove intersects st).planetLabels, l.visible = false := by
    intro hno
    have hf : intersects.findSome? (fun i => satelliteOf i.object) = none :=
      List.findSome?_eq_none_iff.mpr hno
    rw [hf] at hl
    rw [hl]
    constructor
    · unfold visibleCount
      rw [List.countP_map]
      simp [Function.comp_def]
    · intro l hmem
      obtain ⟨l0, _, rfl⟩ := List.mem_map.mp hmem
      rfl
  refine ⟨?_, hsome, hnone, hit_or_no_hit intersects, ?_⟩
  · rw [hl]
    cases intersects.findSome? (fun i => satelliteOf i.object) <;>
      simp [List.map_map, Function.comp_def]
  · rcases hit_or_no_hit intersects with ⟨i, b, hib⟩ | hno
    · exact le_of_eq (hsome i b hib).1
    · rw [(hnone hno).1]
      exact Nat.zero_le 1

theorem onMouseMove_labels_witness :
    LabelsOfInit (init : State ℝ).planetLabels ∧
    FirstSatelliteHit
      [Intersection.mk (80 : ℝ) (Obj.mesh Body.sun), Intersection.mk 150 (Obj.mesh Body.earth)]
      (Intersection.mk 150 (Obj.mesh Body.earth)) Body.earth ∧
    visibleCount (onMouseMove
      [Intersection.mk (80 : ℝ) (Obj.mesh Body.sun), Intersection.mk 150 (Obj.mesh Body.earth)]
      (init : State ℝ)).planetLabels = 1 := by
  have hfirst : FirstSatelliteHit
      [Intersection.mk (80 : ℝ) (Obj.mesh Body.sun), Intersection.mk 150 (Obj.mesh Body.earth)]
      (Intersection.mk 150 (Obj.mesh Body.earth)) Body.earth :=
    ⟨rfl, [Intersection.mk 80 (Obj.mesh Body.sun)], [], rfl, by simp [satelliteOf]⟩
  exact ⟨init_labelsOfInit, hfirst,
    ((onMouseMove_labels init _ init_labelsOfInit).2.1 _ _ hfirst).1⟩

/-- Claim C5 (counterexample): when the pointer ray hits only the sun, a body is hit and
yet no label is visible after `onMouseMove`; when it hits the sun and then the earth,
the visible label is the earth's, not that of the nearest body hit. -/
theorem onMouseMove_sun_counterexample :
    visibleCount (onMouseMove [Intersection.mk (80 : ℝ) (Obj.mesh Body.sun)]
      (init : State ℝ)).planetLabels = 0 ∧
    (onMouseMove
      [Intersection.mk (80 : ℝ) (Obj.mesh Body.sun), Intersection.mk 150 (Obj.mesh Body.earth)]
      (init : State ℝ)).planetLabels.map (fun l => (l.name, l.visible)) =
      [(Body.mercury, false), (Body.venus, false), (Body.earth, true), (Body.mars, false),
       (Body.jupiter, false), (Body.saturn, false), (Body.uranus, false),
       (Body.neptune, false)] := by
  constructor
  · rw [onMouseMove_planetLabels _ _ init_labelsOfInit, init_planetLabels]
    simp [satelliteOf, visibleCount, satellites, planetOrder]
  · rw [onMouseMove_planetLabels _ _ init_labelsOfInit, init_planetLabels]
    simp [satelliteOf, satellites, planetOrder]

/-! ## Click -/

theorem onClick_of_hit {α : Type} [Field α] (controlsUpdate : Camera α → Camera α)
    (intersects : List (Intersection α)) (st : State α) (h : LabelsOfInit st.planetLabels)
    (b : Body) (hb : b ≠ Body.sun) (hpick : pickLoop st.planetLabels intersects = some b) :
    (onClick controlsUpdate intersects st).camera =
      controlsUpdate (focus (st.meshes b).position st.camera) := by
  obtain ⟨l, hfind, hmesh⟩ := labelsOfInit_find st.planetLabels h b hb
  unfold onClick
  simp only [hpick, hfind, hmesh, getWorldPosition]

/-- Claim C6 (as amended): in a state whose label table is the one `init` builds, the
pick loop returns `b` exactly when `b` is the satellite of the first element of the list
that is the mesh of a satellite (the sun's mesh, which has no label, is passed over like
the rings and the stars), and returns nothing exactly when the list contains no satellite
mesh; when the list is ordered by increasing distance that element is nearest among the
satellite meshes in the list; and on click the camera is focused on the current position
of that satellite (before `controls.update()` is applied), while a click that hits no
satellite changes nothing. -/
theorem pickLoop_first_satellite (st : State ℝ) (intersects : List (Intersection ℝ))
    (h : LabelsOfInit st.planetLabels) :
    (∀ b : Body, pickLoop st.planetLabels intersects = some b ↔
      ∃ i, FirstSatelliteHit intersects i b) ∧
    (pickLoop st.planetLabels intersects = none ↔ NoSatelliteHit intersects) ∧
    (∀ (i : Intersection ℝ) (b : Body), FirstSatelliteHit intersects i b →
      intersects.Pairwise (fun a c => a.distance ≤ c.distance) →
      ∀ j ∈ intersects, satelliteOf j.object ≠ none → i.distance ≤ j.distance) ∧
    (∀ (controlsUpdate : Camera ℝ → Camera ℝ) (i : Intersection ℝ) (b : Body),
      FirstSatelliteHit intersects i b →
      (onClick controlsUpdate intersects st).camera =
        controlsUpdate (focus (st.meshes b).position st.camera)) ∧
    (∀ controlsUpdate : Camera ℝ → Camera ℝ, NoSatelliteHit intersects →
      onClick controlsUpdate intersects st = st) := by
  refine ⟨fun b => pickLoop_eq_some_iff _ h intersects b, pickLoop_eq_none_iff _ h intersects,
    ?_, ?_, ?_⟩
  · rintro i b ⟨_, before, after, rfl, hbefore⟩ hsorted j hj hsat
    rcases List.mem_append.mp hj with hjb | hja
    · exact absurd (hbefore j hjb) hsat
    · rcases List.mem_cons.mp hja with rfl | hjafter
      · exact le_refl _
      · have hs := (List.pairwise_append.mp hsorted).2.1
        exact (List.pairwise_cons.mp hs).1 j hjafter
  · intro controlsUpdate i b hib
    exact onClick_of_hit controlsUpdate intersects st h b (satelliteOf_eq_some hib.1).2
      ((pickLoop_eq_some_iff _ h intersects b).mpr ⟨i, hib⟩)
  · intro controlsUpdate hno
    have hp := (pickLoop_eq_none_iff _ h intersects).mpr hno
    unfold onClick
    simp only [hp]

theorem pickLoop_first_satellite_witness :
    (LabelsOfInit (init : State ℝ).planetLabels ∧
      FirstSatelliteHit
        [Intersection.mk (30 : ℝ) (Obj.ring Body.mars), Intersection.mk 50 (Obj.mesh Body.mars),
         Intersection.mk 90 (Obj.mesh Body.venus)]
        (Intersection.mk 50 (Obj.mesh Body.mars)) Body.mars) ∧
    pickLoop (init : State ℝ).planetLabels
        [Intersection.mk (30 : ℝ) (Obj.ring Body.mars), Intersection.mk 50 (Obj.mesh Body.mars),
         Intersection.mk 90 (Obj.mesh Body.venus)] = some Body.mars ∧
    (onClick (fun c => c)
        [Intersection.mk (30 : ℝ) (Obj.ring Body.mars), Intersection.mk 50 (Obj.mesh Body.mars),
         Intersection.mk 90 (Obj.mesh Body.venus)] (init : State ℝ)).camera =
      focus ((init : State ℝ).meshes Body.mars).position (init : State ℝ).camera := by
  have hfirst : FirstSatelliteHit
      [Intersection.mk (30 : ℝ) (Obj.ring Body.mars), Intersection.mk 50 (Obj.mesh Body.mars),
       Intersection.mk 90 (Obj.mesh Body.venus)]
      (Intersection.mk 50 (Obj.mesh Body.mars)) Body.mars :=
    ⟨rfl, [Intersection.mk 30 (Obj.ring Body.mars)],
      [Intersection.mk 90 (Obj.mesh Body.venus)], rfl, by simp [satelliteOf]⟩
  exact ⟨⟨init_labelsOfInit, hfirst⟩,
    ((pickLoop_first_satellite init _ init_labelsOfInit).1 Body.mars).mpr ⟨_, hfirst⟩,
    (pickLoop_first_satellite init _ init_labelsOfInit).2.2.2.1 (fun c => c) _ _ hfirst⟩

/-- Claim C6 (counterexample): with the sun's mesh first and the earth's mesh second in
the list, the pick loop selects the earth, not the sun, and a click focuses the camera on
the earth; with the sun's mesh alone in the list, a body is in the list and yet nothing
is selected and the click changes nothing. -/
theorem pickLoop_sun_counterexample :
    pickLoop (init : State ℝ).planetLabels
      [Intersection.mk (80 : ℝ) (Obj.mesh Body.sun), Intersection.mk 150 (Obj.mesh Body.earth)]
        = some Body.earth ∧
    pickLoop (init : State ℝ).planetLabels
      [Intersection.mk (80 : ℝ) (Obj.mesh Body.sun), Intersection.mk 150 (Obj.mesh Body.earth)]
        ≠ some Body.sun ∧
    (onClick (fun c => c)
      [Intersection.mk (80 : ℝ) (Obj.mesh Body.sun), Intersection.mk 150 (Obj.mesh Body.earth)]
      (init : State ℝ)).camera =
        focus ((init : State ℝ).meshes Body.earth).position (init : State ℝ).camera ∧
    pickLoop (init : State ℝ).planetLabels [Intersection.mk (80 : ℝ) (Obj.mesh Body.sun)]
        = none ∧
    onClick (fun c => c) [Intersection.mk (80 : ℝ) (Obj.mesh Body.sun)] (init : State ℝ)
        = init := by
  have h1 : pickLoop (init : State ℝ).planetLabels
      [Intersection.mk (80 : ℝ) (Obj.mesh Body.sun)] = none := by
    rw [pickLoop_eq _ init_labelsOfInit]
    simp [satelliteOf]
  have h2 : pickLoop (init : State ℝ).planetLabels
      [Intersection.mk (80 : ℝ) (Obj.mesh Body.sun), Intersection.mk 150 (Obj.mesh Body.earth)]
        = some Body.earth := by
    rw [pickLoop_eq _ init_labelsOfInit]
    simp [satelliteOf]
  refine ⟨h2, ?_, ?_, h1, ?_⟩
  · rw [h2]
    decide
  · exact onClick_of_hit (fun c => c) _ init init_labelsOfInit Body.earth (by decide) h2
  · unfold onClick
    simp only [h1]

end SolarSystem
